import Mathlib

/-!
A shallow embedding of the uniq-proc agent (src/main.rs): the registry state
(struct DaemonState), the persistence adapter (save_state,
write_commands_to_config_dir, DaemonState::new), and the request handler verbs
on impl Daemon (execute, kill, toggle, add, remove, restart). OS effects —
spawning a shell child and resolving a pid to a live process — are supplied by
an explicit environment. A panic (the .unwrap() on Command::spawn) is modelled
as the result none.
-/

set_option autoImplicit false

namespace UniqProc

/-- String-keyed association maps standing in for the HashMap fields of
DaemonState; lookup returns the first binding, insert overwrites in place,
remove erases every binding of the key. -/
abbrev SMap (α : Type) : Type := List (String × α)

/-- Lookup, mirroring HashMap get. -/
def SMap.get {α : Type} : SMap α → String → Option α
  | [], _ => none
  | (k2, v) :: rest, k => if k2 = k then some v else SMap.get rest k

/-- Insert or overwrite, mirroring HashMap insert. -/
def SMap.insert {α : Type} : SMap α → String → α → SMap α
  | [], k, v => [(k, v)]
  | (k2, v2) :: rest, k, v =>
    if k2 = k then (k, v) :: rest else (k2, v2) :: SMap.insert rest k v

/-- Deletion, mirroring HashMap remove. -/
def SMap.remove {α : Type} : SMap α → String → SMap α
  | [], _ => []
  | (k2, v) :: rest, k =>
    if k2 = k then SMap.remove rest k else (k2, v) :: SMap.remove rest k

/-- struct DaemonState: the command definitions and the pids of the currently
running named processes. -/
structure DaemonState where
  commands : SMap String
  procs : SMap Nat
  deriving DecidableEq, Repr

/-- The daemon state together with the two persisted files: the runtime
snapshot at /tmp/uniq-proc.state (a whole serialized DaemonState) and the
command-definition store config.json (only the commands map). A file value of
none means the file does not exist. -/
structure World where
  state : DaemonState
  stateFile : Option DaemonState
  configFile : Option (SMap String)
  deriving DecidableEq, Repr

/-- DaemonState::save_state — serialize the whole state to the runtime
snapshot file. -/
def save_state (w : World) : World := { w with stateFile := some w.state }

/-- DaemonState::write_commands_to_config_dir — serialize the commands map to
the config file. -/
def write_commands_to_config_dir (w : World) : World :=
  { w with configFile := some w.state.commands }

/-- DaemonState::new — build the startup state from the persisted files: with
keep set and a snapshot present, recover procs from it, and recover commands
from it only when the config file is absent; a present config file always
supplies commands. -/
def DaemonState.new (keep : Bool) (configFile : Option (SMap String))
    (stateFile : Option DaemonState) : DaemonState :=
  let result : DaemonState := { commands := [], procs := [] }
  let result : DaemonState :=
    match stateFile with
    | some parsed =>
      if keep then
        { commands :=
            match configFile with
            | none => parsed.commands
            | some _ => result.commands,
          procs := parsed.procs }
      else result
    | none => result
  match configFile with
  | some cfg => { result with commands := cfg }
  | none => result

/-- The OS effects the handler consults: spawn gives the pid of the shell child
started for a command string (none when spawning fails, which the source meets
with .unwrap()), alive tells whether a pid resolves to a live process in the
refreshed sysinfo System table that Daemon::kill queries. -/
structure Env where
  spawn : String → Option Nat
  alive : Nat → Bool

/-- The first critical section of Daemon::execute: under the lock, if the name
is already in procs yield no command, otherwise look the command up; the caller
proceeds only with some command. -/
def execGuard (w : World) (name : String) : Option String :=
  let isRunning := (SMap.get w.state.procs name).isSome
  if !isRunning then SMap.get w.state.commands name else none

/-- The second critical section of Daemon::execute: under the lock, record the
spawned pid in procs and persist the snapshot. -/
def execInsert (w : World) (name : String) (pid : Nat) : World :=
  save_state { w with state := { w.state with procs := SMap.insert w.state.procs name pid } }

/-- The final critical section of Daemon::execute, entered after the wait on
the child returns: under the lock, if procs still maps the name to this very
pid, remove the entry, persist, and report plain success; otherwise leave
everything untouched and report success with the concurrent-replacement
caveat. -/
def executeFinish (w : World) (name : String) (pid : Nat) : String × World :=
  if SMap.get w.state.procs name = some pid then
    (name ++ " executed successfully",
     save_state { w with state := { w.state with procs := SMap.remove w.state.procs name } })
  else
    (name ++ " executed successfully, but was restarted with very interesting timing", w)

/-- Daemon::execute run to completion as one sequential request: guard, spawn
(none propagates the .unwrap() panic), record the pid, wait for the child,
final section. -/
def execute (env : Env) (w : World) (name : String) : Option (String × World) :=
  match execGuard w name with
  | none => some (name ++ " is not registered yet", w)
  | some command =>
    match env.spawn command with
    | none => none
    | some pid => some (executeFinish (execInsert w name pid) name pid)

/-- Daemon::kill: absent from procs reports not running; a recorded pid that
does not resolve to a live process reports a lookup failure and changes
nothing; a live pid is killed, its entry removed, and the snapshot persisted.
The success message reproduces the literal text of the source. -/
def kill (env : Env) (w : World) (name : String) : String × World :=
  match SMap.get w.state.procs name with
  | none => (name ++ " was not running via uniq-proc", w)
  | some pid =>
    if env.alive pid then
      ("Successfully killed name",
       save_state { w with state := { w.state with procs := SMap.remove w.state.procs name } })
    else
      ("Failed to get the process", w)

/-- Daemon::toggle: read procs, then kill if the name is present, else
execute. -/
def toggle (env : Env) (w : World) (name : String) : Option (String × World) :=
  if (SMap.get w.state.procs name).isSome then some (kill env w name)
  else execute env w name

/-- Daemon::add: upsert the command, persist snapshot and config file, and
echo the stored command (the source re-reads it with .unwrap(), so none would
model that panic; the lookup always succeeds right after the insert). -/
def add (w : World) (name command : String) : Option (String × World) :=
  let st : DaemonState := { w.state with commands := SMap.insert w.state.commands name command }
  let w2 : World := write_commands_to_config_dir (save_state { w with state := st })
  (SMap.get st.commands name).map (fun c => ("Added: " ++ c, w2))

/-- Daemon::remove: delete the command, persist snapshot and config file,
confirm. -/
def remove (w : World) (name : String) : String × World :=
  let st : DaemonState := { w.state with commands := SMap.remove w.state.commands name }
  ("Removed " ++ name, write_commands_to_config_dir (save_state { w with state := st }))

/-- Daemon::restart: kill, then execute on the resulting state, joining the
two responses with a newline; a panic in execute propagates. -/
def restart (env : Env) (w : World) (name : String) : Option (String × World) :=
  let k := kill env w name
  match execute env k.2 name with
  | none => none
  | some e => some (k.1 ++ "\n" ++ e.1, e.2)

/-- The control points of one in-flight Daemon::execute, between its critical
sections: ready (before the guard), spawning (between guard and spawn),
inserting (between spawn and the pid-recording section), waiting (blocked in
process.wait), finishing (between wait and the final section), done. -/
inductive ExecPhase where
  | ready
  | spawning (command : String)
  | inserting (pid : Nat)
  | waiting (pid : Nat)
  | finishing (pid : Nat)
  | done (response : String)
  deriving DecidableEq, Repr

/-- One transition of an in-flight Daemon::execute. The Bool records whether
the transition runs under the Registry lock: the three brace-delimited blocks
of the source (guard, pid insert, final section) do, while spawning the child
and waiting for it happen with the lock released. The result none models a
panic (spawn failure) or a terminal phase. -/
def execStep (env : Env) (name : String) :
    ExecPhase → World → Option (ExecPhase × World × Bool)
  | ExecPhase.ready, w =>
    match execGuard w name with
    | none => some (ExecPhase.done (name ++ " is not registered yet"), w, true)
    | some command => some (ExecPhase.spawning command, w, true)
  | ExecPhase.spawning command, w =>
    match env.spawn command with
    | none => none
    | some pid => some (ExecPhase.inserting pid, w, false)
  | ExecPhase.inserting pid, w => some (ExecPhase.waiting pid, execInsert w name pid, true)
  | ExecPhase.waiting pid, w => some (ExecPhase.finishing pid, w, false)
  | ExecPhase.finishing pid, w =>
    some (ExecPhase.done (executeFinish w name pid).1, (executeFinish w name pid).2, true)
  | ExecPhase.done _, _ => none

/-- Run an in-flight execute to its done phase under a fuel bound. -/
def runExec (env : Env) (name : String) : Nat → ExecPhase → World → Option (String × World)
  | 0, _, _ => none
  | _ + 1, ExecPhase.done r, w => some (r, w)
  | fuel + 1, ph, w =>
    match execStep env name ph w with
    | none => none
    | some (ph2, w2, _) => runExec env name fuel ph2 w2

/-- A world with the command a registered and nothing running. -/
def wReg : World := { state := { commands := [("a", "cmd")], procs := [] },
                      stateFile := none, configFile := none }

/-- A world with the command a registered and running under pid 7. -/
def wRun : World := { state := { commands := [("a", "cmd")], procs := [("a", 7)] },
                      stateFile := none, configFile := none }

/-- A world with no command registered and nothing running. -/
def wEmpty : World := { state := { commands := [], procs := [] },
                        stateFile := none, configFile := none }

/-- A world where a is tracked as running under pid 5 without a registered
command, as left behind by a keep-recovered snapshot. -/
def wStale : World := { state := { commands := [], procs := [("a", 5)] },
                        stateFile := none, configFile := none }

/-- An environment where every spawn yields pid 7 and every pid is live. -/
def envLive : Env := { spawn := fun _ => some 7, alive := fun _ => true }

/-- An environment where every spawn yields pid 7 and no pid is live. -/
def envDead : Env := { spawn := fun _ => some 7, alive := fun _ => false }

/-- An environment where spawning always fails. -/
def envNoSpawn : Env := { spawn := fun _ => none, alive := fun _ => true }

/-- The world left behind by executing a in wReg under envLive: nothing
running, and the snapshot persisted after the exit was observed. -/
def wRegDone : World := { state := { commands := [("a", "cmd")], procs := [] },
                          stateFile := some { commands := [("a", "cmd")], procs := [] },
                          configFile := none }

theorem SMap.get_remove_self {α : Type} (m : SMap α) (k : String) :
    SMap.get (SMap.remove m k) k = none := by
  induction m with
  | nil => rfl
  | cons p rest ih =>
    by_cases h : p.1 = k <;> simp [SMap.remove, SMap.get, h, ih]

theorem SMap.remove_of_get_none {α : Type} (m : SMap α) (k : String)
    (h : SMap.get m k = none) : SMap.remove m k = m := by
  induction m with
  | nil => rfl
  | cons p rest ih =>
    by_cases hk : p.1 = k
    · simp [SMap.get, hk] at h
    · simp [SMap.get, hk] at h
      simp [SMap.remove, hk, ih h]

/-- C1: the code does not distinguish the two failure cases of Execute — with
a registered and already running, and with a never registered, Execute answers
the identical message a is not registered yet and leaves the state unchanged,
contradicting the claim that the already-running case states so in a message
distinct from the not-registered one. -/
theorem execute_failure_messages_conflated :
    execute envLive wRun "a" = some ("a is not registered yet", wRun) ∧
    execute envLive wEmpty "a" = some ("a is not registered yet", wEmpty) := by
  constructor <;> decide

/-- C2: the final section of Execute, entered after the exit of the child with
pid p is observed: if procs still maps the name to p, that entry is removed,
the snapshot is persisted, and plain success is reported; if it no longer
does, success is reported with the concurrent-replacement caveat and the world
— in particular the current procs entry for the name — is left untouched. -/
theorem executeFinish_spec (w : World) (name : String) (pid : Nat) :
    (SMap.get w.state.procs name = some pid →
        executeFinish w name pid =
          (name ++ " executed successfully",
           save_state
             { w with state := { w.state with procs := SMap.remove w.state.procs name } })) ∧
    (SMap.get w.state.procs name ≠ some pid →
        executeFinish w name pid =
          (name ++ " executed successfully, but was restarted with very interesting timing",
           w)) := by
  constructor <;> intro h <;> simp [executeFinish, h]

/-- C2 witness: the final section at pid 7 (still recorded) removes and
persists; at pid 9 (no longer matching) it reports the caveat and changes
nothing. -/
theorem executeFinish_spec_witness :
    executeFinish wRun "a" 7 =
      ("a" ++ " executed successfully",
       save_state
         { wRun with state := { wRun.state with procs := SMap.remove wRun.state.procs "a" } }) ∧
    executeFinish wRun "a" 9 =
      ("a" ++ " executed successfully, but was restarted with very interesting timing",
       wRun) :=
  ⟨(executeFinish_spec wRun "a" 7).1 (by decide),
   (executeFinish_spec wRun "a" 9).2 (by decide)⟩

/-- C4: Toggle answers exactly what Kill answers and leaves exactly the state
Kill leaves when the name is in procs, and behaves exactly as Execute
otherwise. -/
theorem toggle_spec (env : Env) (w : World) (name : String) :
    toggle env w name =
      if (SMap.get w.state.procs name).isSome then some (kill env w name)
      else execute env w name := rfl

/-- C5: Restart performs Kill first and then Execute on the state Kill left
behind, unconditionally: whatever Kill answered, when Execute on the post-Kill
state yields a response, Restart yields the Kill response joined with that
Execute response and exactly the Execute post-state, and when Execute panics
on the spawn, so does Restart. -/
theorem restart_spec (env : Env) (w : World) (name : String) :
    (∀ (r2 : String) (w2 : World),
        execute env (kill env w name).2 name = some (r2, w2) →
          restart env w name = some ((kill env w name).1 ++ "\n" ++ r2, w2)) ∧
    (execute env (kill env w name).2 name = none → restart env w name = none) := by
  constructor
  · intro r2 w2 h
    simp [restart, h]
  · intro h
    simp [restart, h]

/-- C5 witness: restarting a in wReg kills nothing (a was not running) and
still executes it, joining both responses. -/
theorem restart_spec_witness :
    restart envLive wReg "a" =
      some ((kill envLive wReg "a").1 ++ "\n" ++ "a executed successfully", wRegDone) :=
  (restart_spec envLive wReg "a").1 "a executed successfully" wRegDone (by decide)

/-- C6: saving the runtime snapshot of any state and rebuilding with keep
enabled recovers it: with no config file present, both commands and procs come
back identical to the saved ones; with a config file present, its contents win
for commands while procs still comes from the snapshot. -/
theorem state_roundtrip (w : World) (cfg : SMap String) :
    DaemonState.new true none (save_state w).stateFile = w.state ∧
    DaemonState.new true (some cfg) (save_state w).stateFile =
      { commands := cfg, procs := w.state.procs } := by
  constructor <;> rfl

/-- C7: when spawning the shell child fails, the embedded Daemon::execute hits
the .unwrap() panic (modelled as none) instead of producing an error response:
the request gets no response at all, contrary to the claim that the failure is
propagated to the requester as an error response. -/
theorem execute_spawn_failure_panics :
    execute envNoSpawn wReg "a" = none := rfl

/-- C3 counterexample: with a tracked under a pid that is not live, two Kill
calls in a row both answer Failed to get the process; the second call does not
report that a is not running, as the claim requires of every state. -/
theorem kill_twice_dead_pid_counterexample :
    (kill envDead (kill envDead wStale "a").2 "a").1 = "Failed to get the process" ∧
    (kill envDead (kill envDead wStale "a").2 "a").1 ≠ "a was not running via uniq-proc" := by
  constructor <;> decide

/-- C3 (amended): Kill removes the name from procs iff it was present
beforehand and the recorded pid resolved to a live process; when it does not
remove (absent, or pid not live) the whole world is unchanged; and the second
of two successive Kill calls reports not running and changes nothing whenever
the name was absent or the first call found the pid live — when the name is
present under a dead pid, both calls instead report the process-lookup
failure. -/
theorem kill_spec (env : Env) (w : World) (name : String) :
    (((SMap.get w.state.procs name).isSome ∧
        SMap.get (kill env w name).2.state.procs name = none) ↔
      ∃ pid, SMap.get w.state.procs name = some pid ∧ env.alive pid = true) ∧
    ((∀ pid, SMap.get w.state.procs name = some pid → env.alive pid = false) →
      (kill env w name).2 = w) ∧
    ((SMap.get w.state.procs name = none ∨
        ∃ pid, SMap.get w.state.procs name = some pid ∧ env.alive pid = true) →
      kill env (kill env w name).2 name =
        (name ++ " was not running via uniq-proc", (kill env w name).2)) := by
  rcases hp : SMap.get w.state.procs name with _ | pid
  · refine ⟨by simp [kill, hp], fun _ => by simp [kill, hp], fun _ => by simp [kill, hp]⟩
  · cases ha : env.alive pid with
    | false =>
      refine ⟨by simp [kill, hp, ha], fun _ => by simp [kill, hp, ha], ?_⟩
      rintro (h | ⟨pid2, hpid2, halive⟩)
      · exact absurd h (by simp)
      · cases hpid2
        rw [ha] at halive
        exact absurd halive (by simp)
    | true =>
      refine ⟨?_, ?_, ?_⟩
      · simp [kill, hp, ha, save_state, SMap.get_remove_self]
      · intro h
        have hdead := h pid rfl
        rw [ha] at hdead
        exact absurd hdead (by simp)
      · intro _
        simp [kill, hp, ha, save_state, SMap.get_remove_self]

/-- C3 amended witness: under a universally dead environment the stale entry
survives Kill unchanged, and under a live environment the second of two Kill
calls on wStale reports not running without changing anything. -/
theorem kill_spec_witness :
    (kill envDead wStale "a").2 = wStale ∧
    kill envLive (kill envLive wStale "a").2 "a" =
      ("a" ++ " was not running via uniq-proc", (kill envLive wStale "a").2) :=
  ⟨(kill_spec envDead wStale "a").2.1 (fun _ _ => rfl),
   (kill_spec envLive wStale "a").2.2 (Or.inr ⟨5, by decide, rfl⟩)⟩

/-- C8: Remove deletes the name from commands, leaves procs untouched, always
persists both the snapshot and the config file, and confirms; when the name is
absent from commands it is a no-op that still confirms and re-persists the
unchanged state to both files. -/
theorem remove_spec (w : World) (name : String) :
    (remove w name).1 = "Removed " ++ name ∧
    (remove w name).2.state.commands = SMap.remove w.state.commands name ∧
    (remove w name).2.state.procs = w.state.procs ∧
    (remove w name).2.stateFile = some (remove w name).2.state ∧
    (remove w name).2.configFile = some (SMap.remove w.state.commands name) ∧
    (SMap.get w.state.commands name = none →
        (remove w name).2.state = w.state ∧
        (remove w name).2.stateFile = some w.state ∧
        (remove w name).2.configFile = some w.state.commands) := by
  refine ⟨rfl, rfl, rfl, rfl, rfl, ?_⟩
  intro h
  have he := SMap.remove_of_get_none w.state.commands name h
  refine ⟨?_, ?_, ?_⟩ <;>
    simp [remove, save_state, write_commands_to_config_dir, he]

/-- C8 witness: removing the absent a from the empty world changes nothing and
re-persists the unchanged state to both files. -/
theorem remove_spec_witness :
    (remove wEmpty "a").2.state = wEmpty.state ∧
    (remove wEmpty "a").2.stateFile = some wEmpty.state ∧
    (remove wEmpty "a").2.configFile = some wEmpty.state.commands :=
  (remove_spec wEmpty "a").2.2.2.2.2 rfl

/-- C9: the blocking wait of Execute happens outside the Registry lock: the
waiting transition of the phase model holds no lock and is enabled on every
world unchanged — so requests for other names can take the lock and mutate the
registry freely while a child is awaited; every transition taken without the
lock leaves the shared world untouched, so all registry mutations happen
inside the locked sections; and chaining the phases reproduces Daemon::execute
exactly. -/
theorem execute_wait_outside_lock (env : Env) (name : String) :
    (∀ (pid : Nat) (w : World),
        execStep env name (ExecPhase.waiting pid) w =
          some (ExecPhase.finishing pid, w, false)) ∧
    (∀ (ph : ExecPhase) (w w2 : World) (ph2 : ExecPhase),
        execStep env name ph w = some (ph2, w2, false) → w2 = w) ∧
    (∀ w : World, runExec env name 6 ExecPhase.ready w = execute env w name) := by
  refine ⟨fun pid w => rfl, ?_, ?_⟩
  · intro ph w w2 ph2 h
    cases ph with
    | ready => rcases hg : execGuard w name with _ | cmd <;> simp [execStep, hg] at h
    | spawning cmd =>
      rcases hs : env.spawn cmd with _ | pid <;> simp [execStep, hs] at h
      exact h.2.symm
    | inserting pid => simp [execStep] at h
    | waiting pid =>
      simp [execStep] at h
      exact h.2.symm
    | finishing pid => simp [execStep] at h
    | done r => simp [execStep] at h
  · intro w
    rcases hg : execGuard w name with _ | cmd
    · simp [runExec, execStep, execute, hg]
    · rcases hs : env.spawn cmd with _ | pid <;>
        simp [runExec, execStep, execute, hg, hs]

/-- C9 witness: a concrete waiting task steps to the final section without the
lock and without touching the world, and the chained phases agree with
Daemon::execute on wReg. -/
theorem execute_wait_outside_lock_witness :
    execStep envLive "a" (ExecPhase.waiting 7) wReg =
      some (ExecPhase.finishing 7, wReg, false) ∧
    wReg = wReg ∧
    runExec envLive "a" 6 ExecPhase.ready wReg = execute envLive wReg "a" :=
  ⟨(execute_wait_outside_lock envLive "a").1 7 wReg,
   (execute_wait_outside_lock envLive "a").2.1 (ExecPhase.waiting 7) wReg wReg
     (ExecPhase.finishing 7) ((execute_wait_outside_lock envLive "a").1 7 wReg),
   (execute_wait_outside_lock envLive "a").2.2 wReg⟩

/-- C10: a name tracked in procs under a pid that is not live is stuck: Kill
answers Failed to get the process and changes nothing — state and persisted
files included — and Execute answers the not-registered message without
consulting spawn and without any change, so the entry can neither be executed
again nor cleared through Kill. -/
theorem dead_pid_stuck (env : Env) (w : World) (name : String) (pid : Nat)
    (hp : SMap.get w.state.procs name = some pid) (hd : env.alive pid = false) :
    kill env w name = ("Failed to get the process", w) ∧
    execute env w name = some (name ++ " is not registered yet", w) := by
  constructor
  · simp [kill, hp, hd]
  · simp [execute, execGuard, hp]

/-- C10 witness: the keep-recovered entry of wStale (pid 5, dead) makes Kill
report the lookup failure and Execute report not registered, both without any
change. -/
theorem dead_pid_stuck_witness :
    kill envDead wStale "a" = ("Failed to get the process", wStale) ∧
    execute envDead wStale "a" = some ("a" ++ " is not registered yet", wStale) :=
  dead_pid_stuck envDead wStale "a" 5 (by decide) rfl

end UniqProc
